import Mathlib

set_option maxHeartbeats 1000000

/- Shallow embedding of the weingrill/Lightmeter repository, file
lightmeter.py.  Time instants are modelled as integers counting seconds
of UTC time, so the timedelta of twelve hours is the integer 43200.
Temperatures are exact dyadic rationals, hence Rat models the float
arithmetic of the temperature path exactly; the lux and watt
computations are modelled over the reals.  Raised exceptions are
modelled by explicit result constructors: the code distinguishes
RuntimeError, which Lightmeter.read catches, from USB transport errors
and other exceptions, which it does not catch. -/

namespace Lightmeter

/-- Outcome of a single USB endpoint operation: either the transferred
data, or a low-level USB transport error raised by the endpoint. -/
inductive UsbResult (α : Type) where
  | ok (val : α)
  | usbErr
deriving DecidableEq

/-- Outcome of one of the reader calls: a returned value, a raised
RuntimeError, a raised USB transport error, or another raised
exception (the TypeError or IndexError caused by a gain-table index
outside 1..5).  Lightmeter.read catches RuntimeError only. -/
inductive PyResult (α : Type) where
  | ok (val : α)
  | runtimeError
  | usbError
  | otherError
deriving DecidableEq

/-- The Reading record of lightmeter.py lines 51-68.  The daylight
field is polymorphic because Lightmeter.read never inspects it;
instantiating the parameter with the reals recovers the source type. -/
structure Reading (α : Type) where
  utc : ℤ
  lightlevel : Option ℕ
  daylight : Option α
  temperature : Option ℚ
  status : Bool
deriving DecidableEq

/-- Constant a of lightmeter.py line 18. -/
noncomputable def a : ℝ := 1.4434e5

/-- Constant b of lightmeter.py line 19. -/
noncomputable def b : ℝ := 3.25274e-3

/-- Constant c of lightmeter.py line 20. -/
noncomputable def c : ℝ := 1.3120e-8

/-- Constant d of lightmeter.py line 21. -/
noncomputable def d : ℝ := 5.2776e-3

/-- The timedelta of twelve hours from lightmeter.py line 173, in
seconds. -/
def twelveHours : ℤ := 12 * 3600

/-- Decode of the two-byte temperature response, lightmeter.py lines
250-256: build the sixteen-bit word, mask the three status bits, shift
them away, divide by sixteen, and apply the negative-value correction
when the value exceeds 127. -/
def temperature_decode (b0 b1 : ℕ) : ℚ × ℕ :=
  let raw_temp := b1 * 256 + b0
  let status := raw_temp &&& 7
  let shifted := raw_temp >>> 3
  let temperature : ℚ := (shifted : ℚ) / 16
  let corrected : ℚ :=
    if 127 < temperature then temperature - ((0x7FFF >>> 3 : ℕ) : ℚ) / 16
    else temperature
  (corrected, status)

/-- The temperature command, lightmeter.py lines 231-256.  The write
of the byte T and the read of two bytes are modelled by their
outcomes; there is no try block in the source, so a USB transport
error propagates, while wrong byte counts raise RuntimeError. -/
def read_temperature (writeRes : UsbResult ℕ) (readRes : UsbResult (List ℕ)) :
    PyResult (ℚ × ℕ) :=
  match writeRes with
  | .usbErr => .usbError
  | .ok n =>
      if n ≠ 1 then .runtimeError
      else
        match readRes with
        | .usbErr => .usbError
        | .ok raw =>
            if raw.length ≠ 2 then .runtimeError
            else .ok (temperature_decode (raw.getD 0 0) (raw.getD 1 0))

/-- The piecewise daylight calibration, lightmeter.py lines 258-285.
The channel ratio of the source, computed once at line 266, is here
the inlined quotient of the two channel casts; a none value models the
defensive RuntimeError branch at line 282; all reached branches are
multiplied by the factor 21.0 at line 285. -/
noncomputable def lux_from_daysensor (channel0 channel1 : ℤ) : Option ℝ :=
  if 0 < channel0 then
    Option.map (fun lux => lux * 21.0)
      (if ((channel1 : ℝ) / (channel0 : ℝ)) ≤ 0.50 then
        some (0.0304 * (channel0 : ℝ) -
          0.062 * (channel0 : ℝ) * (((channel1 : ℝ) / (channel0 : ℝ)) ^ (1.4 : ℝ)))
      else if 0.50 < ((channel1 : ℝ) / (channel0 : ℝ)) ∧
          ((channel1 : ℝ) / (channel0 : ℝ)) ≤ 0.61 then
        some (0.0224 * (channel0 : ℝ) - 0.031 * (channel1 : ℝ))
      else if 0.61 < ((channel1 : ℝ) / (channel0 : ℝ)) ∧
          ((channel1 : ℝ) / (channel0 : ℝ)) ≤ 0.80 then
        some (0.0128 * (channel0 : ℝ) - 0.0153 * (channel1 : ℝ))
      else if 0.80 < ((channel1 : ℝ) / (channel0 : ℝ)) ∧
          ((channel1 : ℝ) / (channel0 : ℝ)) ≤ 1.30 then
        some (0.00146 * (channel0 : ℝ) - 0.00112 * (channel1 : ℝ))
      else if 1.30 < ((channel1 : ℝ) / (channel0 : ℝ)) then some 0
      else none)
  else some 0.0

/-- The gain table, the tuple named factors at lightmeter.py line 301.
A none value models the unusable entry at index 0, whose use raises a
TypeError, and any out-of-bounds index, which raises an IndexError. -/
def factors : ℕ → Option ℕ
  | 1 => some 120
  | 2 => some 8
  | 3 => some 4
  | 4 => some 2
  | 5 => some 1
  | _ => none

/-- The light command, lightmeter.py lines 287-311.  A USB transport
error during the write of the byte L is caught and yields the soft
result of zeroes with a false status; wrong byte counts raise
RuntimeError; a USB transport error during the seven-byte read is not
inside the try block and therefore propagates. -/
noncomputable def read_light (writeRes : UsbResult ℕ) (readRes : UsbResult (List ℕ)) :
    PyResult (ℕ × ℝ × Bool) :=
  match writeRes with
  | .usbErr => .ok (0, 0, false)
  | .ok n =>
      if n ≠ 1 then .runtimeError
      else
        match readRes with
        | .usbErr => .usbError
        | .ok raw =>
            if raw.length ≠ 7 then .runtimeError
            else
              let measurement_range := raw.getD 2 0
              let low_word := 256 * raw.getD 4 0 + raw.getD 3 0
              let high_word := 256 * raw.getD 6 0 + raw.getD 5 0
              let raw_reading := 256 * raw.getD 1 0 + raw.getD 0 0
              match factors measurement_range with
              | none => .otherError
              | some f =>
                  match lux_from_daysensor (low_word : ℤ) (high_word : ℤ) with
                  | none => .runtimeError
                  | some daylight =>
                      .ok (raw_reading * f, daylight, decide (raw_reading < 32000))

/-- The temperature phase of Lightmeter.read, lightmeter.py lines
154-177: when the current instant has reached the suspend instant, the
temperature command runs; on success the suspend instant is first
reset to now, then the value is range-validated and the cooldown is
re-armed from the validated value; a RuntimeError yields no
temperature and a false status with the suspend instant unchanged;
other exceptions propagate.  The function returns the assembled
Reading together with the new suspend instant. -/
def read_temp_phase {α : Type} (suspend_time_utc utc : ℤ)
    (lightlevel : Option ℕ) (daylight : Option α) (is_ok : Bool)
    (tempRes : PyResult (ℚ × ℕ)) : PyResult (Reading α × ℤ) :=
  if suspend_time_utc ≤ utc then
    match tempRes with
    | .ok ts =>
        let temperature := ts.1
        if 60 < temperature ∨ temperature < -30 then
          .ok (⟨utc, lightlevel, daylight, none, is_ok⟩, utc)
        else if temperature < 35 then
          .ok (⟨utc, lightlevel, daylight, some temperature, is_ok⟩, utc)
        else
          .ok (⟨utc, lightlevel, daylight, some temperature, is_ok⟩, utc + twelveHours)
    | .runtimeError => .ok (⟨utc, lightlevel, daylight, none, false⟩, suspend_time_utc)
    | .usbError => .usbError
    | .otherError => .otherError
  else .ok (⟨utc, lightlevel, daylight, none, is_ok⟩, suspend_time_utc)

/-- Lightmeter.read, lightmeter.py lines 143-177, as one step of the
polling state machine: given the stored suspend instant, the current
instant, and the outcomes of the light and temperature commands, it
produces the Reading and the new suspend instant, or propagates an
uncaught exception.  A RuntimeError from the light command is caught
and leaves all light fields absent with a false status. -/
def read {α : Type} (suspend_time_utc utc : ℤ)
    (lightRes : PyResult (ℕ × α × Bool))
    (tempRes : PyResult (ℚ × ℕ)) : PyResult (Reading α × ℤ) :=
  match lightRes with
  | .ok lv => read_temp_phase suspend_time_utc utc (some lv.1) (some lv.2.1) lv.2.2 tempRes
  | .runtimeError => read_temp_phase suspend_time_utc utc none none false tempRes
  | .usbError => .usbError
  | .otherError => .otherError

/-- The radiant power computed inside write_database, lightmeter.py
lines 111-115: the full exponential model when a temperature is
present, the degraded model without the temperature term when it is
absent. -/
noncomputable def watts (lightlevel : ℝ) (temperature : Option ℝ) : ℝ :=
  match temperature with
  | none => c * (b * (a * Real.exp (lightlevel / a) - 1.0) + lightlevel)
  | some T =>
      c * (b * (a * Real.exp (lightlevel * (1.0 + d * T) / a) - 1.0) + lightlevel)

/-- Gain factor exactly as the specification words it: the fixed table
120, 8, 4, 2, 1 for range indices 1 to 5. -/
def gain_factor : ℕ → ℕ
  | 1 => 120
  | 2 => 8
  | 3 => 4
  | 4 => 2
  | 5 => 1
  | _ => 0

/-- Piecewise lux value exactly as the specification words it, before
the fixed scale factor: the branch is selected by the channel quotient
and the boundaries 0.50, 0.61, 0.80 and 1.30. -/
noncomputable def lux_spec (channel0 channel1 : ℤ) : ℝ :=
  if ((channel1 : ℝ) / (channel0 : ℝ)) ≤ 0.50 then
    0.0304 * (channel0 : ℝ) -
      0.062 * (channel0 : ℝ) * (((channel1 : ℝ) / (channel0 : ℝ)) ^ (1.4 : ℝ))
  else if ((channel1 : ℝ) / (channel0 : ℝ)) ≤ 0.61 then
    0.0224 * (channel0 : ℝ) - 0.031 * (channel1 : ℝ)
  else if ((channel1 : ℝ) / (channel0 : ℝ)) ≤ 0.80 then
    0.0128 * (channel0 : ℝ) - 0.0153 * (channel1 : ℝ)
  else if ((channel1 : ℝ) / (channel0 : ℝ)) ≤ 1.30 then
    0.00146 * (channel0 : ℝ) - 0.00112 * (channel1 : ℝ)
  else 0

/-- Alignment of the source branch structure of the calibration, whose
middle guards are stated as two-sided conjunctions with a defensive
final arm, with the cascade of one-sided guards used by the
specification table: for every quotient value one of the five source
arms applies and agrees with the corresponding specification arm. -/
theorem branch_align (r x1 x2 x3 x4 : ℝ) :
    (if r ≤ 0.50 then some x1
     else if 0.50 < r ∧ r ≤ 0.61 then some x2
     else if 0.61 < r ∧ r ≤ 0.80 then some x3
     else if 0.80 < r ∧ r ≤ 1.30 then some x4
     else if 1.30 < r then some (0 : ℝ)
     else none)
    = some (if r ≤ 0.50 then x1
       else if r ≤ 0.61 then x2
       else if r ≤ 0.80 then x3
       else if r ≤ 1.30 then x4
       else 0) := by
  by_cases h1 : r ≤ 0.50
  · rw [if_pos h1, if_pos h1]
  · rw [if_neg h1, if_neg h1]
    by_cases h2 : r ≤ 0.61
    · rw [if_pos (show (0.50 : ℝ) < r ∧ r ≤ 0.61 from ⟨not_le.mp h1, h2⟩), if_pos h2]
    · rw [if_neg (show ¬((0.50 : ℝ) < r ∧ r ≤ 0.61) from fun hc => h2 hc.2), if_neg h2]
      by_cases h3 : r ≤ 0.80
      · rw [if_pos (show (0.61 : ℝ) < r ∧ r ≤ 0.80 from ⟨not_le.mp h2, h3⟩), if_pos h3]
      · rw [if_neg (show ¬((0.61 : ℝ) < r ∧ r ≤ 0.80) from fun hc => h3 hc.2), if_neg h3]
        by_cases h4 : r ≤ 1.30
        · rw [if_pos (show (0.80 : ℝ) < r ∧ r ≤ 1.30 from ⟨not_le.mp h3, h4⟩), if_pos h4]
        · rw [if_neg (show ¬((0.80 : ℝ) < r ∧ r ≤ 1.30) from fun hc => h4 hc.2), if_neg h4]
          rw [if_pos (not_le.mp h4)]

/-- Totality of the calibration: the defensive error branch is never
reached, whatever the sign of the channels. -/
theorem lux_from_daysensor_isSome (c0 c1 : ℤ) :
    (lux_from_daysensor c0 c1).isSome = true := by
  unfold lux_from_daysensor
  by_cases h : 0 < c0
  · rw [if_pos h, branch_align, Option.map_some']
    rfl
  · rw [if_neg h]
    rfl

/-- Claim C3: for all integer channel inputs the calibration returns
exactly 0.0 when channel0 is nonpositive, and otherwise 21.0 times the
piecewise value of the specification table selected by the channel
quotient. -/
theorem lux_piecewise_matches_spec : ∀ c0 c1 : ℤ,
    (c0 ≤ 0 → lux_from_daysensor c0 c1 = some 0) ∧
    (0 < c0 → lux_from_daysensor c0 c1 = some (21.0 * lux_spec c0 c1)) := by
  intro c0 c1
  refine ⟨fun h => ?_, fun h => ?_⟩
  · unfold lux_from_daysensor
    rw [if_neg (not_lt.mpr h)]
    norm_num
  · unfold lux_from_daysensor lux_spec
    rw [if_pos h, branch_align, Option.map_some']
    exact congrArg some (mul_comm _ _)

/-- Witness for claim C3 at the concrete channels one and one. -/
theorem lux_piecewise_matches_spec_witness :
    lux_from_daysensor 1 1 = some (21.0 * lux_spec 1 1) :=
  (lux_piecewise_matches_spec 1 1).2 (by decide)

/-- Claim C9: for positive channel0 and nonnegative channel1 the
piecewise calibration is total and the defensive invalid-ratio error
branch is unreachable. -/
theorem lux_branches_total : ∀ c0 c1 : ℤ, 0 < c0 → 0 ≤ c1 →
    (lux_from_daysensor c0 c1).isSome = true := by
  intro c0 c1 _h0 _h1
  exact lux_from_daysensor_isSome c0 c1

/-- Witness for claim C9 at the concrete channels two and one. -/
theorem lux_branches_total_witness : (lux_from_daysensor 2 1).isSome = true :=
  lux_branches_total 2 1 (by decide) (by decide)

/-- Claim C1: for every seven-byte light response whose range index is
between one and five, the decode returns the raw reading b0 + 256 b1
multiplied by the gain factor of the table 120, 8, 4, 2, 1, the
daylight value computed from the little-endian channel words
b3 + 256 b4 and b5 + 256 b6, and a status that is false exactly when
the raw reading is at least 32000. -/
theorem light_decode_matches_spec : ∀ b0 b1 b2 b3 b4 b5 b6 : ℕ,
    1 ≤ b2 → b2 ≤ 5 →
    read_light (.ok 1) (.ok [b0, b1, b2, b3, b4, b5, b6]) =
      .ok ((b0 + 256 * b1) * gain_factor b2,
        (lux_from_daysensor ((b3 + 256 * b4 : ℕ) : ℤ) ((b5 + 256 * b6 : ℕ) : ℤ)).getD 0,
        decide (b0 + 256 * b1 < 32000)) ∧
    (decide (b0 + 256 * b1 < 32000) = false ↔ 32000 ≤ b0 + 256 * b1) := by
  intro b0 b1 b2 b3 b4 b5 b6 hlo hhi
  constructor
  · have e1 : 256 * b1 + b0 = b0 + 256 * b1 := by ring
    have e4 : 256 * b4 + b3 = b3 + 256 * b4 := by ring
    have e6 : 256 * b6 + b5 = b5 + 256 * b6 := by ring
    cases hl : lux_from_daysensor ((b3 + 256 * b4 : ℕ) : ℤ) ((b5 + 256 * b6 : ℕ) : ℤ) with
    | none =>
        have ht := lux_from_daysensor_isSome ((b3 + 256 * b4 : ℕ) : ℤ)
          ((b5 + 256 * b6 : ℕ) : ℤ)
        rw [hl] at ht
        cases ht
    | some dl =>
        push_cast at hl
        interval_cases b2 <;>
          simp [read_light, factors, gain_factor, e1, e4, e6, hl, List.getD]
  · simp only [decide_eq_false_iff_not]
    exact not_lt

/-- Witness for claim C1 at the response of the specification example:
bytes 100, 0, 2, 0, 0, 0, 0 give reading 800 with a true status. -/
theorem light_decode_matches_spec_witness :
    read_light (.ok 1) (.ok [100, 0, 2, 0, 0, 0, 0]) =
      .ok ((100 + 256 * 0) * gain_factor 2,
        (lux_from_daysensor ((0 + 256 * 0 : ℕ) : ℤ) ((0 + 256 * 0 : ℕ) : ℤ)).getD 0,
        decide (100 + 256 * 0 < 32000)) ∧
    (decide (100 + 256 * 0 < 32000) = false ↔ 32000 ≤ 100 + 256 * 0) :=
  light_decode_matches_spec 100 0 2 0 0 0 0 (by decide) (by decide)

/-- Claim C4: for every two-byte temperature response the decode
returns the low three bits of the word b0 + 256 b1 as the status
field, and the shifted word divided by sixteen as the temperature,
corrected downward by the shifted all-ones word divided by sixteen
when the quotient exceeds 127. -/
theorem temperature_decode_matches_spec : ∀ b0 b1 : ℕ, b0 < 256 → b1 < 256 →
    (temperature_decode b0 b1).2 = (b0 + 256 * b1) &&& 0x7 ∧
    (temperature_decode b0 b1).1 =
      (if 127 < (((b0 + 256 * b1) >>> 3 : ℕ) : ℚ) / 16 then
        (((b0 + 256 * b1) >>> 3 : ℕ) : ℚ) / 16 - ((0x7FFF >>> 3 : ℕ) : ℚ) / 16
      else (((b0 + 256 * b1) >>> 3 : ℕ) : ℚ) / 16) := by
  intro b0 b1 _h0 _h1
  have e : b1 * 256 + b0 = b0 + 256 * b1 := by ring
  unfold temperature_decode
  rw [e]
  exact ⟨rfl, rfl⟩

/-- Witness for claim C4 at the response of the specification example:
bytes 208 and 7 carry the word 2000, status 0 and temperature 15.625. -/
theorem temperature_decode_matches_spec_witness :
    (temperature_decode 208 7).2 = (208 + 256 * 7) &&& 0x7 ∧
    (temperature_decode 208 7).1 =
      (if 127 < (((208 + 256 * 7) >>> 3 : ℕ) : ℚ) / 16 then
        (((208 + 256 * 7) >>> 3 : ℕ) : ℚ) / 16 - ((0x7FFF >>> 3 : ℕ) : ℚ) / 16
      else (((208 + 256 * 7) >>> 3 : ℕ) : ℚ) / 16) :=
  temperature_decode_matches_spec 208 7 (by decide) (by decide)

/-- Claim C2: the cooldown state machine of the temperature phase.
First part: a successful, range-valid sample of at least 35 degrees
sets the suspend instant to the current instant plus twelve hours.
Second part: a poll whose instant is strictly before the suspend
instant returns no temperature, leaves the suspend instant unchanged,
and its result does not depend on the temperature outcome at all, so
no temperature command is issued.  Third part: a successful,
range-valid sample below 35 degrees sets the suspend instant to the
current instant, so the very next cycle samples again. -/
theorem cooldown_state_machine :
    (∀ (α : Type) (susp utc : ℤ) (ll : Option ℕ) (dl : Option α) (ok0 : Bool)
        (t : ℚ) (s : ℕ), susp ≤ utc → t ≤ 60 → 35 ≤ t →
        read_temp_phase susp utc ll dl ok0 (.ok (t, s))
          = .ok (⟨utc, ll, dl, some t, ok0⟩, utc + twelveHours)) ∧
    (∀ (α : Type) (susp utc : ℤ) (ll : Option ℕ) (dl : Option α) (ok0 : Bool)
        (tempRes : PyResult (ℚ × ℕ)), utc < susp →
        read_temp_phase susp utc ll dl ok0 tempRes
          = .ok (⟨utc, ll, dl, none, ok0⟩, susp)) ∧
    (∀ (α : Type) (susp utc : ℤ) (ll : Option ℕ) (dl : Option α) (ok0 : Bool)
        (t : ℚ) (s : ℕ), susp ≤ utc → -30 ≤ t → t < 35 →
        read_temp_phase susp utc ll dl ok0 (.ok (t, s))
          = .ok (⟨utc, ll, dl, some t, ok0⟩, utc)) := by
  refine ⟨?_, ?_, ?_⟩
  · intro α susp utc ll dl ok0 t s hle h60 h35
    have hv : ¬(60 < t ∨ t < -30) := by rintro (hx | hx) <;> linarith
    have hn : ¬ t < 35 := not_lt.mpr h35
    simp [read_temp_phase, hle, hv, hn]
  · intro α susp utc ll dl ok0 tempRes hlt
    have hn : ¬ susp ≤ utc := not_le.mpr hlt
    simp [read_temp_phase, hn]
  · intro α susp utc ll dl ok0 t s hle hm30 h35
    have hv : ¬(60 < t ∨ t < -30) := by rintro (hx | hx) <;> linarith
    simp [read_temp_phase, hle, hv, h35]

/-- Witness for claim C2 at concrete instants and samples: a sample of
36 degrees suspends for twelve hours, a poll before the suspend
instant returns no temperature whatever the device would answer, and a
sample of 10 degrees keeps the cooldown satisfied. -/
theorem cooldown_state_machine_witness :
    read_temp_phase 0 0 (some 5) (some (0 : ℚ)) true (.ok (36, 0))
      = .ok (⟨0, some 5, some (0 : ℚ), some 36, true⟩, 0 + twelveHours) ∧
    read_temp_phase 5 0 (some 5) (some (0 : ℚ)) true .usbError
      = .ok (⟨0, some 5, some (0 : ℚ), none, true⟩, 5) ∧
    read_temp_phase 0 0 (some 5) (some (0 : ℚ)) true (.ok (10, 0))
      = .ok (⟨0, some 5, some (0 : ℚ), some 10, true⟩, 0) :=
  ⟨cooldown_state_machine.1 ℚ 0 0 (some 5) (some 0) true 36 0 (by decide) (by decide)
      (by decide),
   cooldown_state_machine.2.1 ℚ 5 0 (some 5) (some 0) true .usbError (by decide),
   cooldown_state_machine.2.2 ℚ 0 0 (some 5) (some 0) true 10 0 (by decide) (by decide)
      (by decide)⟩

/-- Claim C7: a successful sample outside the closed interval from
minus 30 to 60 degrees is discarded, yet the suspend instant is still
reset to the current instant; the boundary values 60 and minus 30 are
reported; and because the suspend instant equals the current instant,
any later cycle reaches the temperature command again, visible here
through the failure outcome degrading the status. -/
theorem out_of_range_temperature_resets_cooldown :
    (∀ (α : Type) (susp utc : ℤ) (ll : Option ℕ) (dl : Option α) (ok0 : Bool)
        (t : ℚ) (s : ℕ), susp ≤ utc → (60 < t ∨ t < -30) →
        read_temp_phase susp utc ll dl ok0 (.ok (t, s))
          = .ok (⟨utc, ll, dl, none, ok0⟩, utc)) ∧
    (∀ (α : Type) (susp utc : ℤ) (ll : Option ℕ) (dl : Option α) (ok0 : Bool) (s : ℕ),
        susp ≤ utc →
        read_temp_phase susp utc ll dl ok0 (.ok (60, s))
          = .ok (⟨utc, ll, dl, some 60, ok0⟩, utc + twelveHours)) ∧
    (∀ (α : Type) (susp utc : ℤ) (ll : Option ℕ) (dl : Option α) (ok0 : Bool) (s : ℕ),
        susp ≤ utc →
        read_temp_phase susp utc ll dl ok0 (.ok (-30, s))
          = .ok (⟨utc, ll, dl, some (-30), ok0⟩, utc)) ∧
    (∀ (α : Type) (utc utc2 : ℤ) (ll : Option ℕ) (dl : Option α) (ok0 : Bool),
        utc ≤ utc2 →
        read_temp_phase utc utc2 ll dl ok0 .runtimeError
          = .ok (⟨utc2, ll, dl, none, false⟩, utc)) := by
  refine ⟨?_, ?_, ?_, ?_⟩
  · intro α susp utc ll dl ok0 t s hle hv
    simp [read_temp_phase, hle, hv]
  · intro α susp utc ll dl ok0 s hle
    norm_num [read_temp_phase, hle]
  · intro α susp utc ll dl ok0 s hle
    norm_num [read_temp_phase, hle]
  · intro α utc utc2 ll dl ok0 hle
    simp [read_temp_phase, hle]

/-- Witness for claim C7 at concrete instants: a sample of 100 degrees
is discarded with the suspend instant reset, the boundary samples 60
and minus 30 are reported, and a later failing command degrades the
status. -/
theorem out_of_range_temperature_resets_cooldown_witness :
    read_temp_phase 0 0 (some 5) (some (0 : ℚ)) true (.ok (100, 0))
      = .ok (⟨0, some 5, some (0 : ℚ), none, true⟩, 0) ∧
    read_temp_phase 0 0 (some 5) (some (0 : ℚ)) true (.ok (60, 0))
      = .ok (⟨0, some 5, some (0 : ℚ), some 60, true⟩, 0 + twelveHours) ∧
    read_temp_phase 0 0 (some 5) (some (0 : ℚ)) true (.ok (-30, 0))
      = .ok (⟨0, some 5, some (0 : ℚ), some (-30), true⟩, 0) ∧
    read_temp_phase 0 0 (some 5) (some (0 : ℚ)) true .runtimeError
      = .ok (⟨0, some 5, some (0 : ℚ), none, false⟩, 0) :=
  ⟨out_of_range_temperature_resets_cooldown.1 ℚ 0 0 (some 5) (some 0) true 100 0
      (by decide) (by decide),
   out_of_range_temperature_resets_cooldown.2.1 ℚ 0 0 (some 5) (some 0) true 0 (by decide),
   out_of_range_temperature_resets_cooldown.2.2.1 ℚ 0 0 (some 5) (some 0) true 0 (by decide),
   out_of_range_temperature_resets_cooldown.2.2.2 ℚ 0 0 (some 5) (some 0) true (by decide)⟩

/-- The decoded temperature value is a function of the upper thirteen
bits of the response word alone. -/
theorem temperature_decode_fst_eq (b0 b1 b0' b1' : ℕ)
    (h : (b1 * 256 + b0) >>> 3 = (b1' * 256 + b0') >>> 3) :
    (temperature_decode b0 b1).1 = (temperature_decode b0' b1').1 := by
  simp only [temperature_decode]
  rw [h]

/-- The polling step never looks at the status component returned next
to the decoded temperature. -/
theorem read_temp_phase_status_component {α : Type} (susp utc : ℤ) (ll : Option ℕ)
    (dl : Option α) (ok0 : Bool) (t : ℚ) (s s' : ℕ) :
    read_temp_phase susp utc ll dl ok0 (.ok (t, s))
      = read_temp_phase susp utc ll dl ok0 (.ok (t, s')) := rfl

/-- Claim C10: two temperature responses that agree on bits three to
fifteen and differ only in the three status bits produce identical
results of the polling step, whatever the stored state and the light
outcome: the decoded status bits are discarded by the state machine. -/
theorem temperature_status_bits_noninterference :
    ∀ (α : Type) (susp utc : ℤ) (lightRes : PyResult (ℕ × α × Bool)) (b0 b1 b0' b1' : ℕ),
      (b1 * 256 + b0) >>> 3 = (b1' * 256 + b0') >>> 3 →
      read susp utc lightRes (.ok (temperature_decode b0 b1))
        = read susp utc lightRes (.ok (temperature_decode b0' b1')) := by
  intro α susp utc lightRes b0 b1 b0' b1' h
  have h1 := temperature_decode_fst_eq b0 b1 b0' b1' h
  rcases hA : temperature_decode b0 b1 with ⟨t, s⟩
  rcases hB : temperature_decode b0' b1' with ⟨t', s'⟩
  rw [hA, hB] at h1
  have ht : t = t' := h1
  subst ht
  cases lightRes with
  | ok lv =>
      simp only [read]
      exact read_temp_phase_status_component susp utc (some lv.1) (some lv.2.1) lv.2.2 t s s'
  | runtimeError =>
      simp only [read]
      exact read_temp_phase_status_component susp utc none none false t s s'
  | usbError => rfl
  | otherError => rfl

/-- Witness for claim C10: the responses with words 0 and 7 differ
only in the status bits and lead to the same polling result. -/
theorem temperature_status_bits_noninterference_witness :
    read 0 0 (.ok (5, (0 : ℚ), true)) (.ok (temperature_decode 0 0))
      = read 0 0 (.ok (5, (0 : ℚ), true)) (.ok (temperature_decode 7 0)) :=
  temperature_status_bits_noninterference ℚ 0 0 (.ok (5, 0, true)) 0 0 7 0 (by decide)

/-- Whenever the temperature phase returns a Reading, the light fields
are exactly the ones it was handed, and the status is either the light
status or false. -/
theorem read_temp_phase_fields {α : Type} (susp utc : ℤ) (ll : Option ℕ) (dl : Option α)
    (ok0 : Bool) (tempRes : PyResult (ℚ × ℕ)) (r : Reading α) (s2 : ℤ)
    (h : read_temp_phase susp utc ll dl ok0 tempRes = .ok (r, s2)) :
    r.lightlevel = ll ∧ r.daylight = dl ∧ (r.status = ok0 ∨ r.status = false) := by
  unfold read_temp_phase at h
  by_cases hle : susp ≤ utc
  · rw [if_pos hle] at h
    cases tempRes with
    | ok ts =>
        dsimp only at h
        by_cases hv : 60 < ts.1 ∨ ts.1 < -30
        · rw [if_pos hv] at h
          injection h with h'
          injection h' with h1 h2
          subst h1
          exact ⟨rfl, rfl, Or.inl rfl⟩
        · rw [if_neg hv] at h
          by_cases h35 : ts.1 < 35
          · rw [if_pos h35] at h
            injection h with h'
            injection h' with h1 h2
            subst h1
            exact ⟨rfl, rfl, Or.inl rfl⟩
          · rw [if_neg h35] at h
            injection h with h'
            injection h' with h1 h2
            subst h1
            exact ⟨rfl, rfl, Or.inl rfl⟩
    | runtimeError =>
        dsimp only at h
        injection h with h'
        injection h' with h1 h2
        subst h1
        exact ⟨rfl, rfl, Or.inr rfl⟩
    | usbError => exact PyResult.noConfusion h
    | otherError => exact PyResult.noConfusion h
  · rw [if_neg hle] at h
    injection h with h'
    injection h' with h1 h2
    subst h1
    exact ⟨rfl, rfl, Or.inl rfl⟩

/-- Counterexample to claim C5 as stated: a USB transport failure
during the light write is a failure of the light command, yet the
poll returns a Reading whose lightlevel is the present value 0, not
an absent value. -/
theorem light_soft_fail_counterexample :
    read 1 0 (read_light .usbErr (.ok [])) .runtimeError
      = .ok (⟨0, some 0, some 0, none, false⟩, 1) ∧
    ((⟨0, some 0, some 0, none, false⟩ : Reading ℝ).lightlevel ≠ none) :=
  ⟨rfl, by simp⟩

/-- Claim C5 amended: a light failure that raises RuntimeError yields
a Reading with absent lightlevel, absent daylight and a false status;
in every returned Reading the lightlevel and the daylight are present
together, and when they are absent the status is false; a USB failure
during the light write instead soft-fails to the present values 0, 0
and a false status. -/
theorem light_failure_amended :
    (∀ (α : Type) (susp utc : ℤ) (tempRes : PyResult (ℚ × ℕ)) (r : Reading α) (s2 : ℤ),
        read susp utc .runtimeError tempRes = .ok (r, s2) →
        r.lightlevel = none ∧ r.daylight = none ∧ r.status = false) ∧
    (∀ (α : Type) (susp utc : ℤ) (lightRes : PyResult (ℕ × α × Bool))
        (tempRes : PyResult (ℚ × ℕ)) (r : Reading α) (s2 : ℤ),
        read susp utc lightRes tempRes = .ok (r, s2) →
        (r.lightlevel.isSome = r.daylight.isSome) ∧
          (r.lightlevel = none → r.status = false)) ∧
    (∀ readRes : UsbResult (List ℕ), read_light .usbErr readRes = .ok (0, 0, false)) := by
  refine ⟨?_, ?_, fun readRes => rfl⟩
  · intro α susp utc tempRes r s2 h
    simp only [read] at h
    obtain ⟨h1, h2, h3⟩ := read_temp_phase_fields susp utc none none false tempRes r s2 h
    exact ⟨h1, h2, h3.elim id id⟩
  · intro α susp utc lightRes tempRes r s2 h
    cases lightRes with
    | ok lv =>
        simp only [read] at h
        obtain ⟨h1, h2, _h3⟩ :=
          read_temp_phase_fields susp utc (some lv.1) (some lv.2.1) lv.2.2 tempRes r s2 h
        refine ⟨by rw [h1, h2]; rfl, fun hn => ?_⟩
        rw [h1] at hn
        exact Option.noConfusion hn
    | runtimeError =>
        simp only [read] at h
        obtain ⟨h1, h2, h3⟩ := read_temp_phase_fields susp utc none none false tempRes r s2 h
        exact ⟨by rw [h1, h2]; rfl, fun _ => h3.elim id id⟩
    | usbError => exact PyResult.noConfusion h
    | otherError => exact PyResult.noConfusion h

/-- Witness for the amended claim C5 at a concrete cycle: a
RuntimeError from the light command at instant 0 with a valid
temperature sample of 10 degrees gives absent light fields and a
false status. -/
theorem light_failure_amended_witness :
    (⟨0, none, none, some 10, false⟩ : Reading ℚ).lightlevel = none ∧
    (⟨0, none, none, some 10, false⟩ : Reading ℚ).daylight = none ∧
    (⟨0, none, none, some 10, false⟩ : Reading ℚ).status = false :=
  light_failure_amended.1 ℚ 0 0 (.ok (10, 0)) ⟨0, none, none, some 10, false⟩ 0 (by decide)

/-- Counterexample to claim C6 as stated: a USB transport failure
during the temperature write is raised past the poll call, so no
Reading is produced at all, instead of a Reading with an absent
temperature and a false status. -/
theorem temperature_usb_error_propagates :
    read 0 0 (.ok (5, (0 : ℚ), true)) (read_temperature .usbErr (.ok [])) = .usbError ∧
    ((PyResult.usbError : PyResult (Reading ℚ × ℤ)) ≠
      .ok (⟨0, some 5, some 0, none, false⟩, 0)) :=
  ⟨rfl, by simp⟩

/-- Claim C6 amended: when a temperature sample is attempted and the
command raises RuntimeError, the Reading has an absent temperature and
a false status even though the light sample succeeded, and the
RuntimeError is not raised past the poll; a USB transport error during
the temperature exchange, however, propagates to the caller. -/
theorem temperature_failure_amended :
    (∀ (α : Type) (susp utc : ℤ) (lv : ℕ × α × Bool), susp ≤ utc →
        read susp utc (.ok lv) .runtimeError
          = .ok (⟨utc, some lv.1, some lv.2.1, none, false⟩, susp)) ∧
    (∀ (α : Type) (susp utc : ℤ) (lv : ℕ × α × Bool), susp ≤ utc →
        read susp utc (.ok lv) .usbError = .usbError) := by
  constructor <;> (intro α susp utc lv hle; simp [read, read_temp_phase, hle])

/-- Witness for the amended claim C6 at a concrete cycle with a
successful light sample of reading 5. -/
theorem temperature_failure_amended_witness :
    read 0 0 (.ok (5, (0 : ℚ), true)) .runtimeError
      = .ok (⟨0, some 5, some 0, none, false⟩, 0) ∧
    read 0 0 (.ok (5, (0 : ℚ), true)) .usbError = .usbError :=
  ⟨temperature_failure_amended.1 ℚ 0 0 (5, 0, true) (by decide),
   temperature_failure_amended.2 ℚ 0 0 (5, 0, true) (by decide)⟩

/-- Claim C8: the radiant power of a reading with a known temperature
is the full exponential model at the stated constants, and with the
temperature absent it is the degraded model with the temperature term
omitted. -/
theorem radiant_power_formula : ∀ L T : ℝ,
    watts L (some T) =
      1.312e-8 * (0.00325274 * (144340 * Real.exp (L * (1 + 0.0052776 * T) / 144340) - 1)
        + L) ∧
    watts L none = 1.312e-8 * (0.00325274 * (144340 * Real.exp (L / 144340) - 1) + L) := by
  intro L T
  constructor <;> norm_num [watts, a, b, c, d]

end Lightmeter
